import Mathlib

/-!
Verification of `enterprise/signals/prior.py`.

The module wraps frozen scipy distributions in a `Prior` class exposing
`pdf`/`logpdf`, and provides two factories: `UniformUnnormedRV` (an
`rv_continuous` subclass whose `_pdf` is constantly 1 and `_logpdf`
constantly 0, restricted by scipy's support mask to `[a, b]`) and
`UniformBoundedRV` (the frozen `scipy.stats.uniform(lower, upper-lower)`).

Modelling conventions:
- Finite floating-point values are idealized as rationals `ℚ`.
- Support bounds may be `±inf` (the numpy `np.inf` defaults), modelled by
  `XQ := WithBot (WithTop ℚ)` with `⊥ = -inf` and `⊤ = +inf`.
- scipy's `nan` output (produced when the `scale > 0` argument check of the
  frozen `uniform` fails) is modelled by `Option`: `none` is `nan`.
- `logpdf` values are finite reals or `-inf`, modelled by `WithBot ℝ`.
- Python-level inputs to `Prior.pdf`/`Prior.logpdf` are modelled by the
  inductive `PyVal`; failures of `np.float(value)` (the builtin `float`)
  and of `ndarray.astype(np.float64, casting='same_kind')` are modelled by
  `Except CastErr`.  Library semantics follow the numpy of the source's
  era (numpy < 1.20, where `np.float` is the builtin `float`): `float()`
  accepts int and float scalars and size-1 real-dtype arrays, and raises
  `TypeError` on complex scalars, lists, tuples, size-≠-1 arrays and
  complex arrays; `astype(..., casting='same_kind')` permits
  `int64 → float64` and `float64 → float64` but rejects
  `complex128 → float64`.
-/

namespace EPrior

/-- Extended rationals used for support bounds: `⊥` models `-np.inf`,
`⊤` models `+np.inf`, and a coerced rational models a finite bound. -/
abbrev XQ := WithBot (WithTop ℚ)

/-- Embedding of a finite value into the extended rationals. -/
def toXQ (q : ℚ) : XQ := ((q : WithTop ℚ) : XQ)

/-- The distribution objects that this module constructs and wraps:
`unnormed a b` is an instance of `UniformUnnormedRV_generator` with
support `[a, b]` (lines 65-75 of the source), and `uniform loc scale`
is the frozen `scipy.stats.uniform(loc, scale)` (line 108). -/
inductive Dist : Type
  | unnormed (a b : XQ)
  | uniform (loc scale : ℚ)
deriving DecidableEq

/-- Factory of lines 78-91: `UniformUnnormedRV(lower, upper)` returns
`UniformUnnormedRV_generator(name='unnormed_uniform', a=lower, b=upper)`
with no validation of the bounds. -/
def UniformUnnormedRV (lower upper : XQ) : Dist := Dist.unnormed lower upper

/-- Factory of lines 94-109: `UniformBoundedRV(lower, upper)` returns
`scipy.stats.uniform(lower, upper - lower)` with no validation of the
bounds. -/
def UniformBoundedRV (lower upper : ℚ) : Dist := Dist.uniform lower (upper - lower)

/-- Density of a distribution at a (finite, already cast) point, as
computed by scipy's public `pdf` method.  For the `unnormed` generator:
`_pdf` returns `1.0` and scipy's support mask `(a <= x) & (x <= b)`
zeroes the result outside the support.  For the frozen
`uniform(loc, scale)`: scipy first checks `scale > 0` and returns `nan`
(`none`) otherwise; inside the standardized support
`0 <= (x-loc)/scale <= 1` the density is `_pdf(y)/scale = 1/scale`,
outside it `0.0`. -/
def Dist.pdfAt : Dist → ℚ → Option ℚ
  | .unnormed a b, x => some (if a ≤ toXQ x ∧ toXQ x ≤ b then 1 else 0)
  | .uniform loc scale, x =>
      if scale ≤ 0 then none
      else if 0 ≤ (x - loc) / scale ∧ (x - loc) / scale ≤ 1 then some (1 / scale)
      else some 0

/-- Log-density at a (finite, already cast) point, as computed by scipy's
public `logpdf` method.  For the `unnormed` generator `_logpdf` returns
`0.0` and scipy fills `-inf` (`⊥`) outside the support mask.  For the
frozen `uniform(loc, scale)`: `nan` (`none`) when `scale <= 0`, and
otherwise `_logpdf(y) - log(scale) = -log(scale)` inside the support and
`-inf` outside. -/
noncomputable def Dist.logpdfAt : Dist → ℚ → Option (WithBot ℝ)
  | .unnormed a b, x =>
      some (if a ≤ toXQ x ∧ toXQ x ≤ b then ((0 : ℝ) : WithBot ℝ) else ⊥)
  | .uniform loc scale, x =>
      if scale ≤ 0 then none
      else if 0 ≤ (x - loc) / scale ∧ (x - loc) / scale ≤ 1 then
        some ((-Real.log (scale : ℝ) : ℝ) : WithBot ℝ)
      else some ⊥

/-- Dtypes of real-valued numpy arrays relevant to the cast. -/
inductive RealDtype : Type
  | int64
  | float64
deriving DecidableEq

/-- Python values that may be passed to `Prior.pdf`/`Prior.logpdf`:
numeric scalars (`int`, `float`, `complex`), Python sequences, and numpy
arrays.  `isSub` records whether the object's type is a proper subclass
of `np.ndarray` (so that `type(value) == np.ndarray` is false);
`ndarrayComplex` is an array of dtype `complex128` with element values
`(re, im)`. -/
inductive PyVal : Type
  | int (n : ℤ)
  | float (q : ℚ)
  | complex (re im : ℚ)
  | pylist (xs : List PyVal)
  | pytuple (xs : List PyVal)
  | ndarray (isSub : Bool) (dtype : RealDtype) (xs : List ℚ)
  | ndarrayComplex (isSub : Bool) (xs : List (ℚ × ℚ))

/-- The ways the cast of lines 51-54 can fail (all are `TypeError`s in
Python; the constructor records which library message is raised). -/
inductive CastErr : Type
  | complexToFloat
  | seqToFloat
  | arraySizeNotOne
  | sameKindCast
deriving DecidableEq

/-- Result shape of a numpy ufunc evaluation: scalar in, scalar out;
array in, array out. -/
inductive NpOut (α : Type) : Type
  | scalar (x : α)
  | array (xs : List α)
deriving DecidableEq

/-- Mapping a function over a scalar-or-array result. -/
def NpOut.map (f : α → β) : NpOut α → NpOut β
  | .scalar x => .scalar (f x)
  | .array xs => .array (xs.map f)

/-- Pointwise lifting of a relation to scalar-or-array results. -/
def NpOut.Rel (r : α → β → Prop) : NpOut α → NpOut β → Prop
  | .scalar a, .scalar b => r a b
  | .array as, .array bs => List.Forall₂ r as bs
  | _, _ => False

/-- Semantics of `np.float(value)` (the builtin `float`, numpy < 1.20):
int and float scalars convert; complex scalars raise `TypeError`
("can't convert complex to float"); lists and tuples raise `TypeError`;
a real-dtype ndarray of size 1 converts via `ndarray.__float__`, any
other size raises `TypeError`; a complex array of size 1 raises the
complex `TypeError`, other sizes the size `TypeError`. -/
def npFloat : PyVal → Except CastErr ℚ
  | .int n => .ok (n : ℚ)
  | .float q => .ok q
  | .complex _ _ => .error .complexToFloat
  | .pylist _ => .error .seqToFloat
  | .pytuple _ => .error .seqToFloat
  | .ndarray _ _ [x] => .ok x
  | .ndarray _ _ _ => .error .arraySizeNotOne
  | .ndarrayComplex _ [_] => .error .complexToFloat
  | .ndarrayComplex _ _ => .error .arraySizeNotOne

/-- The cast of lines 51-54 (shared verbatim by `pdf` and `logpdf`):
`if type(value) == np.ndarray: v = value.astype(np.float64,
casting='same_kind') else: v = np.float(value)`.  Only an object whose
type is exactly `np.ndarray` takes the `astype` branch; `same_kind`
permits `int64 → float64` and `float64 → float64` (value-preserving in
the rational idealization) and rejects `complex128 → float64`.  Every
other value goes through `np.float`. -/
def coerce : PyVal → Except CastErr (NpOut ℚ)
  | .ndarray false _ xs => .ok (.array xs)
  | .ndarrayComplex false _ => .error .sameKindCast
  | v => (npFloat v).map .scalar

/-- The `Prior` class: holds exactly one distribution object, the
`self._rv` assigned at `__init__` (line 46) and never reassigned. -/
structure Prior : Type where
  _rv : Dist

/-- Method `Prior.pdf` (lines 49-55): cast the input, then delegate to
`self._rv.pdf`; a cast error propagates to the caller unhandled. -/
def Prior.pdf (self : Prior) (value : PyVal) : Except CastErr (NpOut (Option ℚ)) :=
  match coerce value with
  | .ok v => .ok (NpOut.map self._rv.pdfAt v)
  | .error e => .error e

/-- Method `Prior.logpdf` (lines 57-62): cast the input, then delegate to
`self._rv.logpdf`; a cast error propagates to the caller unhandled. -/
noncomputable def Prior.logpdf (self : Prior) (value : PyVal) :
    Except CastErr (NpOut (Option (WithBot ℝ))) :=
  match coerce value with
  | .ok v => .ok (NpOut.map self._rv.logpdfAt v)
  | .error e => .error e

/-- Method call as a state transformer on the `Prior` object: the bodies
of `pdf` and `logpdf` contain no assignment, so a call returns its result
together with the object, unchanged. -/
def Prior.pdfCall (self : Prior) (value : PyVal) :
    Except CastErr (NpOut (Option ℚ)) × Prior :=
  (self.pdf value, self)

/-- State-transformer form of a `logpdf` call; as for `pdfCall`, the
method body only reads the object. -/
noncomputable def Prior.logpdfCall (self : Prior) (value : PyVal) :
    Except CastErr (NpOut (Option (WithBot ℝ))) × Prior :=
  (self.logpdf value, self)

/-- Relation between a pdf value and a logpdf value at the same point:
wherever the density is a finite positive number the log-density is its
natural logarithm, and wherever the density is `0.0` the log-density is
`-inf`. -/
def logMatches (p : Option ℚ) (l : Option (WithBot ℝ)) : Prop :=
  ∀ q : ℚ, p = some q →
    (0 < q → l = some ((Real.log (q : ℝ) : ℝ) : WithBot ℝ)) ∧
    (q = 0 → l = some (⊥ : WithBot ℝ))

/-! Helper lemmas shared by the claim theorems. -/

/-- The standardized support test of the frozen uniform distribution,
`0 <= (x - loc)/scale <= 1`, is equivalent to membership of `x` in
`[loc, loc + scale]` whenever `scale > 0`. -/
lemma uniform_support_iff (loc scale x : ℚ) (hs : 0 < scale) :
    (0 ≤ (x - loc) / scale ∧ (x - loc) / scale ≤ 1) ↔ (loc ≤ x ∧ x ≤ loc + scale) := by
  rw [div_le_one hs, le_div_iff₀ hs, zero_mul, sub_nonneg, sub_le_iff_le_add']

/-- Core of the `logpdf = log ∘ pdf` relation, at a single point of a
single distribution. -/
lemma pdf_logpdf_match (d : Dist) (x : ℚ) : logMatches (d.pdfAt x) (d.logpdfAt x) := by
  cases d with
  | unnormed a b =>
    intro q hq
    by_cases hin : a ≤ toXQ x ∧ toXQ x ≤ b
    · simp only [Dist.pdfAt, if_pos hin, Option.some.injEq] at hq
      constructor
      · intro _
        simp only [Dist.logpdfAt, if_pos hin, Option.some.injEq, ← hq]
        norm_num
      · intro h0
        exact absurd (hq.trans h0) one_ne_zero
    · simp only [Dist.pdfAt, if_neg hin, Option.some.injEq] at hq
      constructor
      · intro hpos
        rw [← hq] at hpos
        exact absurd hpos (lt_irrefl 0)
      · intro _
        simp [Dist.logpdfAt, if_neg hin]
  | uniform loc scale =>
    intro q hq
    by_cases hs : scale ≤ 0
    · simp [Dist.pdfAt, hs] at hq
    · have hs' : 0 < scale := not_le.mp hs
      by_cases hin : 0 ≤ (x - loc) / scale ∧ (x - loc) / scale ≤ 1
      · simp only [Dist.pdfAt, if_neg hs, if_pos hin, Option.some.injEq] at hq
        constructor
        · intro _
          simp only [Dist.logpdfAt, if_neg hs, if_pos hin, Option.some.injEq, ← hq]
          have hc : ((1 / scale : ℚ) : ℝ) = ((scale : ℝ))⁻¹ := by push_cast; ring
          rw [hc, Real.log_inv]
        · intro h0
          rw [← hq] at h0
          exact absurd h0 (one_div_ne_zero (ne_of_gt hs'))
      · simp only [Dist.pdfAt, if_neg hs, if_neg hin, Option.some.injEq] at hq
        constructor
        · intro hpos
          rw [← hq] at hpos
          exact absurd hpos (lt_irrefl 0)
        · intro _
          simp [Dist.logpdfAt, if_neg hs, if_neg hin]

/-- Two maps of the same list are pointwise related when the functions
are pointwise related on the list's elements. -/
lemma forall₂_map_map {α β γ : Type} (r : β → γ → Prop) (f : α → β) (g : α → γ)
    (xs : List α) (h : ∀ y ∈ xs, r (f y) (g y)) :
    List.Forall₂ r (xs.map f) (xs.map g) := by
  induction xs with
  | nil => simp
  | cons a as ih =>
    simp only [List.map_cons]
    exact List.Forall₂.cons (h a (by simp)) (ih fun y hy => h y (by simp [hy]))

/-! Claim theorems. -/

/-- Claim C1: for every `lower < upper`, the distribution returned by
`UniformUnnormedRV(lower, upper)` has density `1.0` at every `x` with
`lower <= x <= upper` and `0.0` at every `x` outside `[lower, upper]`,
including half-bounded supports. -/
theorem uniformUnnormedRV_pdf_indicator (lower upper : XQ) (_hlt : lower < upper) (x : ℚ) :
    ((lower ≤ toXQ x ∧ toXQ x ≤ upper) →
      (UniformUnnormedRV lower upper).pdfAt x = some 1) ∧
    (¬(lower ≤ toXQ x ∧ toXQ x ≤ upper) →
      (UniformUnnormedRV lower upper).pdfAt x = some 0) := by
  refine ⟨fun h => ?_, fun h => ?_⟩ <;> simp [UniformUnnormedRV, Dist.pdfAt, h]

/-- Witness for C1: the half-bounded case `lower = 0`, `upper = +inf`
gives `pdf(5) = 1` and `pdf(-1) = 0`. -/
theorem uniformUnnormedRV_pdf_indicator_witness :
    toXQ 0 < (⊤ : XQ) ∧
    (UniformUnnormedRV (toXQ 0) ⊤).pdfAt 5 = some 1 ∧
    (UniformUnnormedRV (toXQ 0) ⊤).pdfAt (-1) = some 0 :=
  ⟨by decide,
   (uniformUnnormedRV_pdf_indicator (toXQ 0) ⊤ (by decide) 5).1 (by decide),
   (uniformUnnormedRV_pdf_indicator (toXQ 0) ⊤ (by decide) (-1)).2 (by decide)⟩

/-- Claim C2: for every `lower < upper`, the distribution returned by
`UniformBoundedRV(lower, upper)` has density `1/(upper-lower)` at every
`x` with `lower <= x <= upper` and `0.0` at every `x` outside. -/
theorem uniformBoundedRV_pdf_value (lower upper : ℚ) (hlt : lower < upper) (x : ℚ) :
    ((lower ≤ x ∧ x ≤ upper) →
      (UniformBoundedRV lower upper).pdfAt x = some (1 / (upper - lower))) ∧
    (¬(lower ≤ x ∧ x ≤ upper) →
      (UniformBoundedRV lower upper).pdfAt x = some 0) := by
  have hs : 0 < upper - lower := sub_pos.2 hlt
  have hsupp := uniform_support_iff lower (upper - lower) x hs
  have hub : lower + (upper - lower) = upper := by ring
  rw [hub] at hsupp
  constructor
  · intro h
    simp only [UniformBoundedRV, Dist.pdfAt, if_neg (not_le.2 hs)]
    rw [if_pos (hsupp.2 h)]
  · intro h
    simp only [UniformBoundedRV, Dist.pdfAt, if_neg (not_le.2 hs)]
    rw [if_neg fun hc => h (hsupp.1 hc)]

/-- Witness for C2: `UniformBoundedRV(0, 1)` gives `pdf(1/2) = 1` and
`pdf(3/2) = 0`. -/
theorem uniformBoundedRV_pdf_value_witness :
    (0 : ℚ) < 1 ∧
    (UniformBoundedRV 0 1).pdfAt (1/2) = some 1 ∧
    (UniformBoundedRV 0 1).pdfAt (3/2) = some 0 := by
  refine ⟨by norm_num, ?_, ?_⟩
  · have h := (uniformBoundedRV_pdf_value 0 1 (by norm_num) (1/2)).1 (by norm_num)
    simpa using h
  · exact (uniformBoundedRV_pdf_value 0 1 (by norm_num) (3/2)).2 (by norm_num)

/-- Claim C3: for every `Prior` and every input accepted by the cast,
`logpdf` agrees with the natural logarithm of `pdf` wherever the density
is positive, and is `-inf` wherever the density is `0.0`, for both
distribution kinds and for scalar and array inputs alike. -/
theorem prior_logpdf_is_log_of_pdf (p : Prior) (value : PyVal) (out : NpOut ℚ)
    (hc : coerce value = Except.ok out) :
    p.pdf value = Except.ok (NpOut.map p._rv.pdfAt out) ∧
    p.logpdf value = Except.ok (NpOut.map p._rv.logpdfAt out) ∧
    NpOut.Rel logMatches (NpOut.map p._rv.pdfAt out) (NpOut.map p._rv.logpdfAt out) := by
  refine ⟨by simp [Prior.pdf, hc], by simp [Prior.logpdf, hc], ?_⟩
  cases out with
  | scalar q => exact pdf_logpdf_match p._rv q
  | array xs =>
    exact forall₂_map_map logMatches _ _ xs fun y _ => pdf_logpdf_match p._rv y

/-- Witness for C3: the bounded uniform prior on `[0, 1]` at the scalar
input `1/2`. -/
theorem prior_logpdf_is_log_of_pdf_witness :
    coerce (PyVal.float (1/2)) = Except.ok (NpOut.scalar (1/2)) ∧
    ((Prior.mk (UniformBoundedRV 0 1)).pdf (PyVal.float (1/2)) =
      Except.ok (NpOut.map (UniformBoundedRV 0 1).pdfAt (NpOut.scalar (1/2))) ∧
     (Prior.mk (UniformBoundedRV 0 1)).logpdf (PyVal.float (1/2)) =
      Except.ok (NpOut.map (UniformBoundedRV 0 1).logpdfAt (NpOut.scalar (1/2))) ∧
     NpOut.Rel logMatches
       (NpOut.map (UniformBoundedRV 0 1).pdfAt (NpOut.scalar (1/2)))
       (NpOut.map (UniformBoundedRV 0 1).logpdfAt (NpOut.scalar (1/2)))) :=
  ⟨rfl, prior_logpdf_is_log_of_pdf (Prior.mk (UniformBoundedRV 0 1))
    (PyVal.float (1/2)) (NpOut.scalar (1/2)) rfl⟩

/-- Claim C4: `Prior.pdf` and `Prior.logpdf` coerce their input to
double precision before delegating; a cast error (raised for complex
scalars and complex-dtype arrays) is propagated unchanged to the caller,
and on success the result is exactly the delegated evaluation of the
cast value. -/
theorem prior_cast_before_delegate (p : Prior) (value : PyVal) :
    (∀ e, coerce value = Except.error e →
      p.pdf value = Except.error e ∧ p.logpdf value = Except.error e) ∧
    (∀ out, coerce value = Except.ok out →
      p.pdf value = Except.ok (NpOut.map p._rv.pdfAt out) ∧
      p.logpdf value = Except.ok (NpOut.map p._rv.logpdfAt out)) ∧
    (∀ re im : ℚ, coerce (PyVal.complex re im) = Except.error CastErr.complexToFloat) ∧
    (∀ xs, coerce (PyVal.ndarrayComplex false xs) = Except.error CastErr.sameKindCast) ∧
    (∀ b xs, ∃ e, coerce (PyVal.ndarrayComplex b xs) = Except.error e) := by
  refine ⟨fun e he => ⟨by simp [Prior.pdf, he], by simp [Prior.logpdf, he]⟩,
          fun out hout => ⟨by simp [Prior.pdf, hout], by simp [Prior.logpdf, hout]⟩,
          fun re im => rfl, fun xs => rfl, fun b xs => ?_⟩
  cases b with
  | false => exact ⟨CastErr.sameKindCast, rfl⟩
  | true =>
    match xs with
    | [] => exact ⟨CastErr.arraySizeNotOne, rfl⟩
    | [z] => exact ⟨CastErr.complexToFloat, rfl⟩
    | z :: w :: rest => exact ⟨CastErr.arraySizeNotOne, rfl⟩

/-- Witness for C4: a complex scalar input makes both methods fail with
the cast error. -/
theorem prior_cast_before_delegate_witness :
    coerce (PyVal.complex 2 3) = Except.error CastErr.complexToFloat ∧
    (Prior.mk (UniformBoundedRV 0 1)).pdf (PyVal.complex 2 3) =
      Except.error CastErr.complexToFloat ∧
    (Prior.mk (UniformBoundedRV 0 1)).logpdf (PyVal.complex 2 3) =
      Except.error CastErr.complexToFloat :=
  ⟨rfl,
   ((prior_cast_before_delegate (Prior.mk (UniformBoundedRV 0 1))
      (PyVal.complex 2 3)).1 CastErr.complexToFloat rfl).1,
   ((prior_cast_before_delegate (Prior.mk (UniformBoundedRV 0 1))
      (PyVal.complex 2 3)).1 CastErr.complexToFloat rfl).2⟩

/-- Claim C5: `Prior.pdf` and `Prior.logpdf` preserve shape — an
accepted scalar input yields a scalar, an accepted array input of
length `N` yields an array of length `N` — and the bounded uniform
prior on `[0, 1]` maps the array `[0.2, 0.8, 1.2]` to `[1.0, 1.0, 0.0]`. -/
theorem prior_shape_preservation (p : Prior) :
    (∀ q : ℚ, p.pdf (PyVal.float q) = Except.ok (NpOut.scalar (p._rv.pdfAt q)) ∧
      p.logpdf (PyVal.float q) = Except.ok (NpOut.scalar (p._rv.logpdfAt q))) ∧
    (∀ dt (xs : List ℚ),
      p.pdf (PyVal.ndarray false dt xs) = Except.ok (NpOut.array (xs.map p._rv.pdfAt)) ∧
      p.logpdf (PyVal.ndarray false dt xs) =
        Except.ok (NpOut.array (xs.map p._rv.logpdfAt)) ∧
      (xs.map p._rv.pdfAt).length = xs.length ∧
      (xs.map p._rv.logpdfAt).length = xs.length) ∧
    (Prior.mk (UniformBoundedRV 0 1)).pdf (PyVal.ndarray false RealDtype.float64 [1/5, 4/5, 6/5]) =
      Except.ok (NpOut.array [some 1, some 1, some 0]) := by
  refine ⟨fun q => ⟨rfl, rfl⟩,
          fun dt xs => ⟨rfl, rfl, List.length_map _ _, List.length_map _ _⟩, ?_⟩
  norm_num [Prior.pdf, coerce, Dist.pdfAt, UniformBoundedRV, NpOut.map]

/-- Claim C6: for every `lower < upper`, the distribution returned by
`UniformUnnormedRV(lower, upper)` has `logpdf(x) = 0.0` at every `x`
with `lower <= x <= upper`. -/
theorem uniformUnnormedRV_logpdf_zero (lower upper : XQ) (_hlt : lower < upper) (x : ℚ)
    (h1 : lower ≤ toXQ x) (h2 : toXQ x ≤ upper) :
    (UniformUnnormedRV lower upper).logpdfAt x = some ((0 : ℝ) : WithBot ℝ) := by
  simp [UniformUnnormedRV, Dist.logpdfAt, h1, h2]

/-- Witness for C6: the half-bounded case `lower = 0`, `upper = +inf`
gives `logpdf(5) = 0`. -/
theorem uniformUnnormedRV_logpdf_zero_witness :
    toXQ 0 < (⊤ : XQ) ∧ toXQ 0 ≤ toXQ 5 ∧ toXQ 5 ≤ (⊤ : XQ) ∧
    (UniformUnnormedRV (toXQ 0) ⊤).logpdfAt 5 = some ((0 : ℝ) : WithBot ℝ) :=
  ⟨by decide, by decide, by decide,
   uniformUnnormedRV_logpdf_zero (toXQ 0) ⊤ (by decide) 5 (by decide) (by decide)⟩

/-- Claim C7: the factories validate nothing.  Each factory body only
forwards its bounds to the underlying distribution constructor, for
every choice of bounds including `upper <= lower`; with malformed
bounds the caller observes the library-defined behavior — `nan`
(`none`) everywhere from the frozen uniform, and a density of `0.0`
everywhere from the unnormed generator's empty support. -/
theorem factories_no_validation (lower upper : ℚ) (lo hi : XQ) :
    UniformUnnormedRV lo hi = Dist.unnormed lo hi ∧
    UniformBoundedRV lower upper = Dist.uniform lower (upper - lower) ∧
    (upper ≤ lower → ∀ x : ℚ,
      (UniformBoundedRV lower upper).pdfAt x = none ∧
      (UniformBoundedRV lower upper).logpdfAt x = none) ∧
    (hi < lo → ∀ x : ℚ, (UniformUnnormedRV lo hi).pdfAt x = some 0) := by
  refine ⟨rfl, rfl, fun h x => ?_, fun h x => ?_⟩
  · have hs : upper - lower ≤ 0 := sub_nonpos.2 h
    exact ⟨by simp [UniformBoundedRV, Dist.pdfAt, hs],
           by simp [UniformBoundedRV, Dist.logpdfAt, hs]⟩
  · simp only [UniformUnnormedRV, Dist.pdfAt, Option.some.injEq]
    rw [if_neg]
    · rintro ⟨h1, h2⟩
      exact absurd (h1.trans h2) (not_le.2 h)

/-- Witness for C7: `UniformBoundedRV(1, 0)` yields `nan` at `x = 5`,
and `UniformUnnormedRV(0, -inf)` yields density `0` at `x = 5`. -/
theorem factories_no_validation_witness :
    (0 : ℚ) ≤ 1 ∧ (⊥ : XQ) < toXQ 0 ∧
    (UniformBoundedRV 1 0).pdfAt 5 = none ∧
    (UniformBoundedRV 1 0).logpdfAt 5 = none ∧
    (UniformUnnormedRV (toXQ 0) ⊥).pdfAt 5 = some 0 :=
  ⟨by norm_num, by decide,
   ((factories_no_validation 1 0 (toXQ 0) ⊥).2.2.1 (by norm_num) 5).1,
   ((factories_no_validation 1 0 (toXQ 0) ⊥).2.2.1 (by norm_num) 5).2,
   (factories_no_validation 1 0 (toXQ 0) ⊥).2.2.2 (by decide) 5⟩

/-- Claim C8: for a fixed `Prior`, `pdf` and `logpdf` are pure and
deterministic — both method bodies contain no assignment, so as state
transformers they return the object unchanged, the wrapped distribution
is never replaced, and equal inputs give equal results. -/
theorem prior_calls_pure (p : Prior) (v w : PyVal) (hvw : v = w) :
    (p.pdfCall v).2 = p ∧ (p.logpdfCall v).2 = p ∧
    ((p.pdfCall v).2)._rv = p._rv ∧
    (p.pdfCall v).1 = (p.pdfCall w).1 ∧
    (p.logpdfCall v).1 = (p.logpdfCall w).1 := by
  subst hvw
  exact ⟨rfl, rfl, rfl, rfl, rfl⟩

/-- Witness for C8: two identical calls on the bounded uniform prior. -/
theorem prior_calls_pure_witness :
    (PyVal.float 5) = (PyVal.float 5) ∧
    ((Prior.mk (UniformBoundedRV 0 1)).pdfCall (PyVal.float 5)).2 =
      Prior.mk (UniformBoundedRV 0 1) ∧
    ((Prior.mk (UniformBoundedRV 0 1)).pdfCall (PyVal.float 5)).1 =
      ((Prior.mk (UniformBoundedRV 0 1)).pdfCall (PyVal.float 5)).1 :=
  ⟨rfl,
   (prior_calls_pure (Prior.mk (UniformBoundedRV 0 1)) (PyVal.float 5)
     (PyVal.float 5) rfl).1,
   (prior_calls_pure (Prior.mk (UniformBoundedRV 0 1)) (PyVal.float 5)
     (PyVal.float 5) rfl).2.2.2.1⟩

/-- Counterexample to claim C9 as stated: a size-1 `ndarray` subclass is
a sequence of numbers whose type is not exactly `np.ndarray`, so it is
routed through the scalar `np.float` conversion — but `float` succeeds
on a size-1 array, so the call returns a scalar result instead of
raising a `TypeError`. -/
theorem prior_subclass_scalar_no_error :
    (Prior.mk (UniformBoundedRV 0 1)).pdf (PyVal.ndarray true RealDtype.float64 [5]) =
      Except.ok (NpOut.scalar (some 0)) := by
  norm_num [Prior.pdf, coerce, npFloat, Except.map, Dist.pdfAt, UniformBoundedRV, NpOut.map]

/-- Claim C9 (amended): the array/scalar dispatch is an exact type test —
only inputs whose type is exactly `np.ndarray` take the array path.  Any
other input is routed through the scalar `np.float` conversion, which
raises a `TypeError` for Python lists and tuples and for `ndarray`
subclasses of size other than one, but evaluates a size-1 `ndarray`
subclass as a scalar. -/
theorem prior_exact_ndarray_dispatch (p : Prior) :
    (∀ dt (xs : List ℚ),
      p.pdf (PyVal.ndarray false dt xs) = Except.ok (NpOut.array (xs.map p._rv.pdfAt)) ∧
      p.logpdf (PyVal.ndarray false dt xs) =
        Except.ok (NpOut.array (xs.map p._rv.logpdfAt))) ∧
    (∀ xs, p.pdf (PyVal.pylist xs) = Except.error CastErr.seqToFloat ∧
      p.logpdf (PyVal.pylist xs) = Except.error CastErr.seqToFloat) ∧
    (∀ xs, p.pdf (PyVal.pytuple xs) = Except.error CastErr.seqToFloat ∧
      p.logpdf (PyVal.pytuple xs) = Except.error CastErr.seqToFloat) ∧
    (∀ dt (x : ℚ),
      p.pdf (PyVal.ndarray true dt [x]) = Except.ok (NpOut.scalar (p._rv.pdfAt x)) ∧
      p.logpdf (PyVal.ndarray true dt [x]) = Except.ok (NpOut.scalar (p._rv.logpdfAt x))) ∧
    (∀ dt (xs : List ℚ), xs.length ≠ 1 →
      p.pdf (PyVal.ndarray true dt xs) = Except.error CastErr.arraySizeNotOne ∧
      p.logpdf (PyVal.ndarray true dt xs) = Except.error CastErr.arraySizeNotOne) := by
  refine ⟨fun dt xs => ⟨rfl, rfl⟩, fun xs => ⟨rfl, rfl⟩, fun xs => ⟨rfl, rfl⟩,
          fun dt x => ⟨rfl, rfl⟩, fun dt xs hlen => ?_⟩
  match xs with
  | [] => exact ⟨rfl, rfl⟩
  | [z] => exact absurd rfl hlen
  | z :: w :: rest => exact ⟨rfl, rfl⟩

/-- Witness for C9 (amended): an `ndarray` subclass of length 2 raises
the size `TypeError` through the scalar path. -/
theorem prior_exact_ndarray_dispatch_witness :
    ([1, 2] : List ℚ).length ≠ 1 ∧
    (Prior.mk (UniformBoundedRV 0 1)).pdf (PyVal.ndarray true RealDtype.float64 [1, 2]) =
      Except.error CastErr.arraySizeNotOne ∧
    (Prior.mk (UniformBoundedRV 0 1)).logpdf (PyVal.ndarray true RealDtype.float64 [1, 2]) =
      Except.error CastErr.arraySizeNotOne :=
  ⟨by decide,
   ((prior_exact_ndarray_dispatch (Prior.mk (UniformBoundedRV 0 1))).2.2.2.2
      RealDtype.float64 [1, 2] (by decide)).1,
   ((prior_exact_ndarray_dispatch (Prior.mk (UniformBoundedRV 0 1))).2.2.2.2
      RealDtype.float64 [1, 2] (by decide)).2⟩

/-- Claim C10: integer inputs are accepted by the cast — every integer
scalar is converted by `np.float` and every integer-dtype array passes
the `same_kind` `astype` cast, and the result is the density at the
corresponding floating-point value(s). -/
theorem prior_accepts_integers (p : Prior) :
    (∀ n : ℤ, p.pdf (PyVal.int n) = Except.ok (NpOut.scalar (p._rv.pdfAt (n : ℚ))) ∧
      p.logpdf (PyVal.int n) = Except.ok (NpOut.scalar (p._rv.logpdfAt (n : ℚ)))) ∧
    (∀ ns : List ℤ,
      p.pdf (PyVal.ndarray false RealDtype.int64 (ns.map fun n => (n : ℚ))) =
        Except.ok (NpOut.array ((ns.map fun n => (n : ℚ)).map p._rv.pdfAt)) ∧
      p.logpdf (PyVal.ndarray false RealDtype.int64 (ns.map fun n => (n : ℚ))) =
        Except.ok (NpOut.array ((ns.map fun n => (n : ℚ)).map p._rv.logpdfAt))) :=
  ⟨fun n => ⟨rfl, rfl⟩, fun ns => ⟨rfl, rfl⟩⟩

end EPrior
